import Mathlib

/-!
# Game Media Engine headers: `IAgoraGMEngine.h` and `AgoraGmeKit.h`

A shallow embedding of the declarations of the two public headers of the
Game Media Engine (GME) add-on of `AgoraRtcKit.framework`:

* the enumerations of both headers, as inductive types together with their
  declarations (enumerator and optional explicit initialiser), evaluated by
  the C/C++ rule for enumerator values;
* the `GMEngineContext` struct and its default constructor;
* the method tables of `IGameMediaEngine` (C++) and `AgoraGmeKit`
  (Objective-C) with their declared return types and documented return values.
-/

namespace GME

/-! ## Enumerator values -/

/-- Values of the enumerators of a C/C++ `enum` declaration, given as the list of
enumerators with their explicit initialisers: an enumerator with an initialiser
takes that value, one without takes the value of the previous enumerator plus
one, and `next` is the value an enumerator without initialiser takes at the head
of the list. -/
def enumValuesFrom {α : Type} (next : Int) : List (α × Option Int) → List (α × Int)
  | [] => []
  | (e, some v) :: rest => (e, v) :: enumValuesFrom (v + 1) rest
  | (e, none) :: rest => (e, next) :: enumValuesFrom (next + 1) rest

/-- Values of the enumerators of a whole declaration: the first enumerator
defaults to zero. -/
def enumValues {α : Type} (decl : List (α × Option Int)) : List (α × Int) :=
  enumValuesFrom 0 decl

/-- Integer code of an enumerator, `none` when the declaration does not list it. -/
def enumToInt {α : Type} [DecidableEq α] (decl : List (α × Option Int)) (e : α) : Option Int :=
  (enumValues decl).lookup e

/-- Cast of an integer to the enumeration: the first enumerator with that code,
`none` when no enumerator has it. -/
def enumOfInt {α : Type} (decl : List (α × Option Int)) (v : Int) : Option α :=
  ((enumValues decl).find? (fun p => p.2 == v)).map (fun p => p.1)

/-- Cast between two enumerations through the integer code. -/
def enumCast {α β : Type} [DecidableEq α] (src : List (α × Option Int))
    (dst : List (β × Option Int)) (e : α) : Option β :=
  (enumToInt src e).bind (enumOfInt dst)

/-! ## Enumerations of `IAgoraGMEngine.h` -/

/-- Connection state of the Game Media Engine (`enum GME_CONNECTION_STATE_TYPE`). -/
inductive GME_CONNECTION_STATE_TYPE
  | GME_CONNECTION_STATE_CONNECTING
  | GME_CONNECTION_STATE_CONNECTED
  | GME_CONNECTION_STATE_DISCONNECTED
  deriving DecidableEq, Repr

namespace GME_CONNECTION_STATE_TYPE

/-- The enumerators as declared: only the first one has an initialiser. -/
def declaration : List (GME_CONNECTION_STATE_TYPE × Option Int) :=
  [ (GME_CONNECTION_STATE_CONNECTING, some 0),
    (GME_CONNECTION_STATE_CONNECTED, none),
    (GME_CONNECTION_STATE_DISCONNECTED, none) ]

/-- Integer code of a connection state. -/
def toInt (s : GME_CONNECTION_STATE_TYPE) : Option Int := enumToInt declaration s

/-- Connection state with the given integer code. -/
def ofInt (v : Int) : Option GME_CONNECTION_STATE_TYPE := enumOfInt declaration v

end GME_CONNECTION_STATE_TYPE

/-- Reason of a connection state change (`enum GME_CONNECTION_CHANGED_REASON_TYPE`). -/
inductive GME_CONNECTION_CHANGED_REASON_TYPE
  | GME_CONNECTION_CHANGED_DEFAULT
  | GME_CONNECTION_CHANGED_CONNECTING
  | GME_CONNECTION_CHANGED_CREATE_ROOM_FAIL
  | GME_CONNECTION_CHANGED_RTM_DISCONNECT
  | GME_CONNECTION_CHANGED_RTM_ABORTED
  deriving DecidableEq, Repr

namespace GME_CONNECTION_CHANGED_REASON_TYPE

/-- The enumerators as declared: only the first one has an initialiser. -/
def declaration : List (GME_CONNECTION_CHANGED_REASON_TYPE × Option Int) :=
  [ (GME_CONNECTION_CHANGED_DEFAULT, some 0),
    (GME_CONNECTION_CHANGED_CONNECTING, none),
    (GME_CONNECTION_CHANGED_CREATE_ROOM_FAIL, none),
    (GME_CONNECTION_CHANGED_RTM_DISCONNECT, none),
    (GME_CONNECTION_CHANGED_RTM_ABORTED, none) ]

/-- Integer code of a change reason. -/
def toInt (r : GME_CONNECTION_CHANGED_REASON_TYPE) : Option Int := enumToInt declaration r

/-- Change reason with the given integer code. -/
def ofInt (v : Int) : Option GME_CONNECTION_CHANGED_REASON_TYPE := enumOfInt declaration v

end GME_CONNECTION_CHANGED_REASON_TYPE

/-- Spatial audio synchronisation mode (`enum SPACIAL_AUDIO_SYNC_MODE`). -/
inductive SPACIAL_AUDIO_SYNC_MODE
  | SPACIAL_AUDIO_SYNC_MODE_SERVER
  | SPACIAL_AUDIO_SYNC_MODE_LOCAL
  deriving DecidableEq, Repr

namespace SPACIAL_AUDIO_SYNC_MODE

/-- The enumerators as declared: both have an initialiser. -/
def declaration : List (SPACIAL_AUDIO_SYNC_MODE × Option Int) :=
  [ (SPACIAL_AUDIO_SYNC_MODE_SERVER, some 0),
    (SPACIAL_AUDIO_SYNC_MODE_LOCAL, some 1) ]

/-- Integer code of a synchronisation mode. -/
def toInt (m : SPACIAL_AUDIO_SYNC_MODE) : Option Int := enumToInt declaration m

/-- Synchronisation mode with the given integer code. -/
def ofInt (v : Int) : Option SPACIAL_AUDIO_SYNC_MODE := enumOfInt declaration v

end SPACIAL_AUDIO_SYNC_MODE

/-! ## Enumerations of `AgoraGmeKit.h` -/

/-- Audio mode (`NS_ENUM(NSInteger, AgoraGMEAudioMode)`). -/
inductive AgoraGMEAudioMode
  | AgoraGMEAudioModeWorld
  | AgoraGMEAudioModeTeam
  deriving DecidableEq, Repr

namespace AgoraGMEAudioMode

/-- The enumerators as declared: both have an initialiser. -/
def declaration : List (AgoraGMEAudioMode × Option Int) :=
  [ (AgoraGMEAudioModeWorld, some 0),
    (AgoraGMEAudioModeTeam, some 1) ]

/-- Integer code of an audio mode. -/
def toInt (m : AgoraGMEAudioMode) : Option Int := enumToInt declaration m

/-- Audio mode with the given integer code. -/
def ofInt (v : Int) : Option AgoraGMEAudioMode := enumOfInt declaration v

end AgoraGMEAudioMode

/-- Connection state (`NS_ENUM(NSInteger, AgoraGMEConnectionState)`). -/
inductive AgoraGMEConnectionState
  | AgoraGMEConnectionStateConnecting
  | AgoraGMEConnectionStateConnected
  | AgoraGMEConnectionStateDisconnected
  deriving DecidableEq, Repr

namespace AgoraGMEConnectionState

/-- The enumerators as declared: every one has an initialiser. -/
def declaration : List (AgoraGMEConnectionState × Option Int) :=
  [ (AgoraGMEConnectionStateConnecting, some 0),
    (AgoraGMEConnectionStateConnected, some 1),
    (AgoraGMEConnectionStateDisconnected, some 2) ]

/-- Integer code of a connection state. -/
def toInt (s : AgoraGMEConnectionState) : Option Int := enumToInt declaration s

/-- Connection state with the given integer code. -/
def ofInt (v : Int) : Option AgoraGMEConnectionState := enumOfInt declaration v

end AgoraGMEConnectionState

/-- Change reason (`NS_ENUM(NSInteger, AgoraGMEConnectionChangedReason)`). -/
inductive AgoraGMEConnectionChangedReason
  | AgoraGMEConnectionChangedReasonDefault
  | AgoraGMEConnectionChangedReasonConnecting
  | AgoraGMEConnectionChangedReasonCreateRoomFail
  | AgoraGMEConnectionChangedReasonRtmDisconnect
  | AgoraGMEConnectionChangedReasonAborted
  deriving DecidableEq, Repr

namespace AgoraGMEConnectionChangedReason

/-- The enumerators as declared: every one has an initialiser. -/
def declaration : List (AgoraGMEConnectionChangedReason × Option Int) :=
  [ (AgoraGMEConnectionChangedReasonDefault, some 0),
    (AgoraGMEConnectionChangedReasonConnecting, some 1),
    (AgoraGMEConnectionChangedReasonCreateRoomFail, some 2),
    (AgoraGMEConnectionChangedReasonRtmDisconnect, some 3),
    (AgoraGMEConnectionChangedReasonAborted, some 4) ]

/-- Integer code of a change reason. -/
def toInt (r : AgoraGMEConnectionChangedReason) : Option Int := enumToInt declaration r

/-- Change reason with the given integer code. -/
def ofInt (v : Int) : Option AgoraGMEConnectionChangedReason := enumOfInt declaration v

end AgoraGMEConnectionChangedReason

/-- Synchronisation mode (`NS_ENUM(NSInteger, AgoraGMESpacialAudioSyncMode)`). -/
inductive AgoraGMESpacialAudioSyncMode
  | AgoraGMESpacialAudioSyncModeServer
  | AgoraGMESpacialAudioSyncModeLocal
  deriving DecidableEq, Repr

namespace AgoraGMESpacialAudioSyncMode

/-- The enumerators as declared: both have an initialiser. -/
def declaration : List (AgoraGMESpacialAudioSyncMode × Option Int) :=
  [ (AgoraGMESpacialAudioSyncModeServer, some 0),
    (AgoraGMESpacialAudioSyncModeLocal, some 1) ]

/-- Integer code of a synchronisation mode. -/
def toInt (m : AgoraGMESpacialAudioSyncMode) : Option Int := enumToInt declaration m

/-- Synchronisation mode with the given integer code. -/
def ofInt (v : Int) : Option AgoraGMESpacialAudioSyncMode := enumOfInt declaration v

end AgoraGMESpacialAudioSyncMode

/-- The C++ enumerator an Objective-C connection state is named after. -/
def AgoraGMEConnectionState.counterpart : AgoraGMEConnectionState → GME_CONNECTION_STATE_TYPE
  | .AgoraGMEConnectionStateConnecting => .GME_CONNECTION_STATE_CONNECTING
  | .AgoraGMEConnectionStateConnected => .GME_CONNECTION_STATE_CONNECTED
  | .AgoraGMEConnectionStateDisconnected => .GME_CONNECTION_STATE_DISCONNECTED

/-- The C++ enumerator an Objective-C change reason is named after. -/
def AgoraGMEConnectionChangedReason.counterpart :
    AgoraGMEConnectionChangedReason → GME_CONNECTION_CHANGED_REASON_TYPE
  | .AgoraGMEConnectionChangedReasonDefault => .GME_CONNECTION_CHANGED_DEFAULT
  | .AgoraGMEConnectionChangedReasonConnecting => .GME_CONNECTION_CHANGED_CONNECTING
  | .AgoraGMEConnectionChangedReasonCreateRoomFail => .GME_CONNECTION_CHANGED_CREATE_ROOM_FAIL
  | .AgoraGMEConnectionChangedReasonRtmDisconnect => .GME_CONNECTION_CHANGED_RTM_DISCONNECT
  | .AgoraGMEConnectionChangedReasonAborted => .GME_CONNECTION_CHANGED_RTM_ABORTED

/-- The C++ enumerator an Objective-C synchronisation mode is named after. -/
def AgoraGMESpacialAudioSyncMode.counterpart :
    AgoraGMESpacialAudioSyncMode → SPACIAL_AUDIO_SYNC_MODE
  | .AgoraGMESpacialAudioSyncModeServer => .SPACIAL_AUDIO_SYNC_MODE_SERVER
  | .AgoraGMESpacialAudioSyncModeLocal => .SPACIAL_AUDIO_SYNC_MODE_LOCAL

/-! ## Audio modes of `setRangeAudioMode` -/

/-- The audio modes the documentation of `setRangeAudioMode` describes. -/
inductive RangeAudioMode
  /-- Everyone mode: the player can be heard by other players in the same room. -/
  | everyone
  /-- Team-only mode: only teammates can hear each other. -/
  | teamOnly
  deriving DecidableEq, Repr

/-- The values of the parameter `rangeAudioMode` as the documentation of
`IGameMediaEngine::setRangeAudioMode` lists them. -/
def setRangeAudioMode_modes : List (Int × RangeAudioMode) :=
  [ (0, RangeAudioMode.everyone),
    (1, RangeAudioMode.teamOnly) ]

/-- The audio mode a value of `rangeAudioMode` selects, `none` for a value the
documentation does not list. -/
def rangeAudioModeOfCode (code : Int) : Option RangeAudioMode :=
  setRangeAudioMode_modes.lookup code

/-- The audio mode an enumerator of `AgoraGMEAudioMode` is named after. -/
def AgoraGMEAudioMode.mode : AgoraGMEAudioMode → RangeAudioMode
  | .AgoraGMEAudioModeWorld => RangeAudioMode.everyone
  | .AgoraGMEAudioModeTeam => RangeAudioMode.teamOnly

/-! ## `GMEngineContext` -/

/-- A value stored in a field of `GMEngineContext`: a pointer (`none` is the null
pointer, `some a` the address `a`) or an `unsigned int`. -/
inductive Value
  | pointer (addr : Option Nat)
  | unsignedInt (n : Nat)
  deriving DecidableEq, Repr

/-- The null pointer constant. -/
def NULL : Value := Value.pointer none

/-- Conversion of an integer to `unsigned int` (32 bits). -/
def toUnsignedInt (v : Int) : Nat := (v % 2 ^ 32).toNat

namespace GMEngineContext

/-- The data members of `struct GMEngineContext`. -/
inductive Field
  | rtcEngine
  | eventHandler
  | appId
  | areaCode
  deriving DecidableEq, Repr

/-- The data members in the order of their declaration. -/
def fields : List Field :=
  [Field.rtcEngine, Field.eventHandler, Field.appId, Field.areaCode]

end GMEngineContext

/-- An object of type `GMEngineContext`: every field holds a value, or is
indeterminate (`none`) as long as nothing has been stored in it. -/
def GMEngineContext : Type := GMEngineContext.Field → Option Value

namespace GMEngineContext

/-- Storage of a `GMEngineContext` before its constructor runs. -/
def indeterminate : GMEngineContext := fun _ => none

/-- Initialisation of one field. -/
def init (ctx : GMEngineContext) (f : Field) (v : Value) : GMEngineContext :=
  fun g => if g = f then some v else ctx g

/-- The member initialiser list of the constructor
`GMEngineContext() : rtcEngine(NULL), eventHandler(NULL), appId(NULL), areaCode(AREA_CODE_CN)`.
The enumerator `AREA_CODE_CN` is declared in `IAgoraRtcEngine.h`; its value is a
parameter here, converted to the type of `areaCode`. -/
def memInitializers (AREA_CODE_CN : Int) : List (Field × Value) :=
  [ (Field.rtcEngine, NULL),
    (Field.eventHandler, NULL),
    (Field.appId, NULL),
    (Field.areaCode, Value.unsignedInt (toUnsignedInt AREA_CODE_CN)) ]

/-- The default constructor: the member initialisers run on indeterminate
storage; the constructor body is empty. -/
def ctor (AREA_CODE_CN : Int) : GMEngineContext :=
  (memInitializers AREA_CODE_CN).foldl (fun ctx p => ctx.init p.1 p.2) indeterminate

end GMEngineContext

/-! ## Method tables -/

namespace IGameMediaEngine

namespace Method

end Method

end IGameMediaEngine

namespace AgoraGmeKit

namespace Method

end Method

end AgoraGmeKit

/-! ## Lemmas -/

/-- Conversion to `unsigned int` keeps a value that is in the range of the type. -/
theorem toUnsignedInt_of_inRange (v : Int) (h0 : 0 ≤ v) (h1 : v < 2 ^ 32) :
    (toUnsignedInt v : Int) = v := by
  unfold toUnsignedInt
  rw [Int.emod_eq_of_lt h0 h1]
  exact Int.toNat_of_nonneg h0

/-- C1: `GME_CONNECTION_STATE_TYPE` has exactly the three members Connecting,
Connected and Disconnected with the pairwise distinct codes 0, 1 and 2, in this
order, `GME_CONNECTION_CHANGED_REASON_TYPE` has exactly the five members Default,
Connecting, CreateRoomFail, RtmDisconnect and Aborted with the pairwise distinct
codes 0 to 4, in this order, and converting a member of either enumeration to its
code and back gives the member. -/
theorem C1_connection_enumerations :
    enumValues GME_CONNECTION_STATE_TYPE.declaration
        = [ (GME_CONNECTION_STATE_TYPE.GME_CONNECTION_STATE_CONNECTING, 0),
            (GME_CONNECTION_STATE_TYPE.GME_CONNECTION_STATE_CONNECTED, 1),
            (GME_CONNECTION_STATE_TYPE.GME_CONNECTION_STATE_DISCONNECTED, 2) ]
      ∧ (∀ s : GME_CONNECTION_STATE_TYPE,
          s ∈ GME_CONNECTION_STATE_TYPE.declaration.map Prod.fst)
      ∧ ((enumValues GME_CONNECTION_STATE_TYPE.declaration).map Prod.snd).Nodup
      ∧ (∀ s : GME_CONNECTION_STATE_TYPE,
          s.toInt.bind GME_CONNECTION_STATE_TYPE.ofInt = some s)
      ∧ enumValues GME_CONNECTION_CHANGED_REASON_TYPE.declaration
        = [ (GME_CONNECTION_CHANGED_REASON_TYPE.GME_CONNECTION_CHANGED_DEFAULT, 0),
            (GME_CONNECTION_CHANGED_REASON_TYPE.GME_CONNECTION_CHANGED_CONNECTING, 1),
            (GME_CONNECTION_CHANGED_REASON_TYPE.GME_CONNECTION_CHANGED_CREATE_ROOM_FAIL, 2),
            (GME_CONNECTION_CHANGED_REASON_TYPE.GME_CONNECTION_CHANGED_RTM_DISCONNECT, 3),
            (GME_CONNECTION_CHANGED_REASON_TYPE.GME_CONNECTION_CHANGED_RTM_ABORTED, 4) ]
      ∧ (∀ r : GME_CONNECTION_CHANGED_REASON_TYPE,
          r ∈ GME_CONNECTION_CHANGED_REASON_TYPE.declaration.map Prod.fst)
      ∧ ((enumValues GME_CONNECTION_CHANGED_REASON_TYPE.declaration).map Prod.snd).Nodup
      ∧ (∀ r : GME_CONNECTION_CHANGED_REASON_TYPE,
          r.toInt.bind GME_CONNECTION_CHANGED_REASON_TYPE.ofInt = some r) := by
  refine ⟨by decide, ?_, by decide, ?_, by decide, ?_, by decide, ?_⟩
  · intro s; cases s <;> decide
  · intro s; cases s <;> decide
  · intro r; cases r <;> decide
  · intro r; cases r <;> decide

/-- C6: every member of the three Objective-C enumerations `AgoraGMEConnectionState`,
`AgoraGMEConnectionChangedReason` and `AgoraGMESpacialAudioSyncMode` has the same
integer code as the C++ enumerator it is named after, every C++ enumerator is the
counterpart of an Objective-C member, and the cast through the integer code takes
a member to its counterpart in both directions. -/
theorem C6_objc_codes_agree_with_cpp :
    (∀ s : AgoraGMEConnectionState,
        s.toInt = s.counterpart.toInt ∧ s.toInt.isSome = true
        ∧ enumCast AgoraGMEConnectionState.declaration
            GME_CONNECTION_STATE_TYPE.declaration s = some s.counterpart
        ∧ enumCast GME_CONNECTION_STATE_TYPE.declaration
            AgoraGMEConnectionState.declaration s.counterpart = some s)
      ∧ (∀ c : GME_CONNECTION_STATE_TYPE, ∃ s : AgoraGMEConnectionState, s.counterpart = c)
      ∧ (∀ r : AgoraGMEConnectionChangedReason,
        r.toInt = r.counterpart.toInt ∧ r.toInt.isSome = true
        ∧ enumCast AgoraGMEConnectionChangedReason.declaration
            GME_CONNECTION_CHANGED_REASON_TYPE.declaration r = some r.counterpart
        ∧ enumCast GME_CONNECTION_CHANGED_REASON_TYPE.declaration
            AgoraGMEConnectionChangedReason.declaration r.counterpart = some r)
      ∧ (∀ c : GME_CONNECTION_CHANGED_REASON_TYPE,
          ∃ r : AgoraGMEConnectionChangedReason, r.counterpart = c)
      ∧ (∀ m : AgoraGMESpacialAudioSyncMode,
        m.toInt = m.counterpart.toInt ∧ m.toInt.isSome = true
        ∧ enumCast AgoraGMESpacialAudioSyncMode.declaration
            SPACIAL_AUDIO_SYNC_MODE.declaration m = some m.counterpart
        ∧ enumCast SPACIAL_AUDIO_SYNC_MODE.declaration
            AgoraGMESpacialAudioSyncMode.declaration m.counterpart = some m)
      ∧ (∀ c : SPACIAL_AUDIO_SYNC_MODE,
          ∃ m : AgoraGMESpacialAudioSyncMode, m.counterpart = c) := by
  refine ⟨?_, ?_, ?_, ?_, ?_, ?_⟩
  · intro s; cases s <;> decide
  · intro c
    cases c
    · exact ⟨AgoraGMEConnectionState.AgoraGMEConnectionStateConnecting, rfl⟩
    · exact ⟨AgoraGMEConnectionState.AgoraGMEConnectionStateConnected, rfl⟩
    · exact ⟨AgoraGMEConnectionState.AgoraGMEConnectionStateDisconnected, rfl⟩
  · intro r; cases r <;> decide
  · intro c
    cases c
    · exact ⟨AgoraGMEConnectionChangedReason.AgoraGMEConnectionChangedReasonDefault, rfl⟩
    · exact ⟨AgoraGMEConnectionChangedReason.AgoraGMEConnectionChangedReasonConnecting, rfl⟩
    · exact ⟨AgoraGMEConnectionChangedReason.AgoraGMEConnectionChangedReasonCreateRoomFail, rfl⟩
    · exact ⟨AgoraGMEConnectionChangedReason.AgoraGMEConnectionChangedReasonRtmDisconnect, rfl⟩
    · exact ⟨AgoraGMEConnectionChangedReason.AgoraGMEConnectionChangedReasonAborted, rfl⟩
  · intro m; cases m <;> decide
  · intro c
    cases c
    · exact ⟨AgoraGMESpacialAudioSyncMode.AgoraGMESpacialAudioSyncModeServer, rfl⟩
    · exact ⟨AgoraGMESpacialAudioSyncMode.AgoraGMESpacialAudioSyncModeLocal, rfl⟩

/-- C4: the documentation of `setRangeAudioMode` lists the codes 0, the everyone
mode, and 1, the team-only mode, and no other; `AgoraGMEAudioMode` has exactly the
members `AgoraGMEAudioModeWorld` with code 0 and `AgoraGMEAudioModeTeam` with
code 1, so the code of each member selects the mode the member is named after,
and an integer is a documented code exactly when it is the code of a member. -/
theorem C4_audio_mode_codes :
    setRangeAudioMode_modes.map Prod.fst = [0, 1]
      ∧ rangeAudioModeOfCode 0 = some RangeAudioMode.everyone
      ∧ rangeAudioModeOfCode 1 = some RangeAudioMode.teamOnly
      ∧ enumValues AgoraGMEAudioMode.declaration
        = [ (AgoraGMEAudioMode.AgoraGMEAudioModeWorld, 0),
            (AgoraGMEAudioMode.AgoraGMEAudioModeTeam, 1) ]
      ∧ (∀ m : AgoraGMEAudioMode, m ∈ AgoraGMEAudioMode.declaration.map Prod.fst)
      ∧ (∀ m : AgoraGMEAudioMode, m.toInt.bind rangeAudioModeOfCode = some m.mode)
      ∧ (∀ code : Int, (rangeAudioModeOfCode code).isSome
          = (AgoraGMEAudioMode.ofInt code).isSome) := by
  refine ⟨by decide, by decide, by decide, by decide, ?_, ?_, ?_⟩
  · intro m; cases m <;> decide
  · intro m; cases m <;> decide
  · intro code
    by_cases h0 : code = 0
    · subst h0; decide
    · by_cases h1 : code = 1
      · subst h1; decide
      · have e0 : (code == 0) = false := by simpa using h0
        have e1 : (code == 1) = false := by simpa using h1
        have d0 : ((0 : Int) == code) = false := by simpa using fun h => h0 h.symm
        have d1 : ((1 : Int) == code) = false := by simpa using fun h => h1 h.symm
        simp [rangeAudioModeOfCode, setRangeAudioMode_modes, List.lookup,
          AgoraGMEAudioMode.ofInt, enumOfInt, enumValues, enumValuesFrom,
          AgoraGMEAudioMode.declaration, List.find?, e0, e1, d0, d1]

/-! ## The default context -/

/-- C3: `GMEngineContext` has exactly the four fields `rtcEngine`, `eventHandler`,
`appId` and `areaCode`, its default constructor initialises each of them once, in
this order, so that no field stays indeterminate: the three pointers are null and
`areaCode` holds `AREA_CODE_CN` converted to `unsigned int`, which is
`AREA_CODE_CN` itself whenever that value is in the range of `unsigned int`. -/
theorem C3_default_context (AREA_CODE_CN : Int) :
    GMEngineContext.fields.length = 4
      ∧ GMEngineContext.fields.Nodup
      ∧ (∀ f : GMEngineContext.Field, f ∈ GMEngineContext.fields)
      ∧ (GMEngineContext.memInitializers AREA_CODE_CN).map Prod.fst = GMEngineContext.fields
      ∧ GMEngineContext.ctor AREA_CODE_CN GMEngineContext.Field.rtcEngine = some NULL
      ∧ GMEngineContext.ctor AREA_CODE_CN GMEngineContext.Field.eventHandler = some NULL
      ∧ GMEngineContext.ctor AREA_CODE_CN GMEngineContext.Field.appId = some NULL
      ∧ GMEngineContext.ctor AREA_CODE_CN GMEngineContext.Field.areaCode
        = some (Value.unsignedInt (toUnsignedInt AREA_CODE_CN))
      ∧ (0 ≤ AREA_CODE_CN → AREA_CODE_CN < 2 ^ 32 →
          (toUnsignedInt AREA_CODE_CN : Int) = AREA_CODE_CN)
      ∧ (∀ f : GMEngineContext.Field, (GMEngineContext.ctor AREA_CODE_CN f).isSome = true) := by
  refine ⟨rfl, by decide, ?_, rfl, rfl, rfl, rfl, rfl, ?_, ?_⟩
  · intro f; cases f <;> decide
  · exact toUnsignedInt_of_inRange AREA_CODE_CN
  · intro f; cases f <;> rfl

/-- C3 at the value 1 of `AREA_CODE_CN`: the four fields of the default context
are null, null, null and 1. -/
theorem C3_default_context_witness :
    GMEngineContext.ctor 1 GMEngineContext.Field.rtcEngine = some NULL
      ∧ GMEngineContext.ctor 1 GMEngineContext.Field.eventHandler = some NULL
      ∧ GMEngineContext.ctor 1 GMEngineContext.Field.appId = some NULL
      ∧ GMEngineContext.ctor 1 GMEngineContext.Field.areaCode = some (Value.unsignedInt 1)
      ∧ (toUnsignedInt 1 : Int) = 1 :=
  ⟨(C3_default_context 1).2.2.2.2.1,
   (C3_default_context 1).2.2.2.2.2.1,
   (C3_default_context 1).2.2.2.2.2.2.1,
   (C3_default_context 1).2.2.2.2.2.2.2.1,
   (C3_default_context 1).2.2.2.2.2.2.2.2.1 (by decide) (by decide)⟩

/-! ## Return types and statuses -/

end GME
